import Mathlib

/-!
Verification of the axis-layout and tick-generation engine (`plt/axis.go`).

Go `float64` values are modelled as rationals (`ℚ`): all of the layout
arithmetic in the source is exact affine arithmetic, and the claims under
study do not depend on IEEE rounding.  External collaborators (the font
provider, the drawing area, Go's `fmt` package) are not part of the source
file; they are modelled from the specification where a claim needs them,
and each such definition is marked `Modelled from the spec:` in its doc
comment.
-/

namespace Plt

/-- The points-per-inch constant `vecgfx.PtInch`.  Modelled from the spec:
a fixed point-to-inch conversion constant is used throughout
(72 points/inch). -/
def PtInch : ℚ := 72

/-- Modelled from the spec: an RGBA color (`image/color`), opaque data as far
as the layout engine is concerned. -/
structure Color where
  r : ℕ
  g : ℕ
  b : ℕ
  a : ℕ
deriving Repr, DecidableEq

/-- Modelled from the spec: the package-level `Black` color constant used by
`MakeAxis` (declared elsewhere in the repository). -/
def Black : Color := ⟨0, 0, 0, 255⟩

/-- Modelled from the spec: the result of `Font.Extents()` — ascent, descent
and line height, all in point units. -/
structure FontExtents where
  Ascent : ℚ
  Descent : ℚ
  Height : ℚ
deriving Repr, DecidableEq

/-- Modelled from the spec: a handle to a measured font.  The layout code
only queries its extents and per-string widths (in points). -/
structure Font where
  extents : FontExtents
  width : String → ℚ

/-- The `Font.Extents()` accessor, matching the Go method name. -/
def Font.Extents (f : Font) : FontExtents := f.extents

/-- The `Font.Width(s)` accessor, matching the Go method name. -/
def Font.Width (f : Font) (s : String) : ℚ := f.width s

/-- The `TextStyle` from the repository (declared outside `axis.go`): a color and
a font.  Modelled from the spec. -/
structure TextStyle where
  Color : Color
  Font : Font

/-- The `LineStyle` from the repository (declared outside `axis.go`): a color and
a line width in inches.  Modelled from the spec. -/
structure LineStyle where
  Color : Color
  Width : ℚ

/-- A point in drawing coordinates.  Modelled from the spec. -/
structure Point where
  X : ℚ
  Y : ℚ
deriving Repr, DecidableEq

/-- The `DrawArea`, an external collaborator: a rectangle with a `Min` corner, a
`Max()` corner and a `DPI()` scale factor.  Modelled from the spec; the Go
accessor methods `Max()` and `DPI()` are modelled as fields. -/
structure DrawArea where
  Min : Point
  Max : Point
  DPI : ℚ
deriving Repr, DecidableEq

/-- The `DrawArea.Center()`.  Modelled from the spec: the center point of the
rectangle. -/
def DrawArea.Center (da : DrawArea) : Point :=
  ⟨(da.Min.X + da.Max.X) / 2, (da.Min.Y + da.Max.Y) / 2⟩

/-- A `Tick` is a single tick mark (`axis.go`): a data value and a label. -/
structure Tick where
  Value : ℚ
  Label : String
deriving Repr, DecidableEq

/-- The `Tick.minor` (`axis.go`): true if this is a minor tick mark, i.e. the
label is the empty string. -/
def Tick.minor (t : Tick) : Bool :=
  t.Label == ""

/-- The `Tick.lengthOffset` (`axis.go`): the offset added to the start of the
tick mark's line; half of the length for a minor tick, zero otherwise. -/
def Tick.lengthOffset (t : Tick) (len : ℚ) : ℚ :=
  if t.minor then len / 2 else 0

/-- The `TickMarks` (`axis.go`): tick label style, mark line style, major tick
length in inches, and the embedded `TickMarker`.  The interface-typed
`TickMarker` field is modelled as its single capability, a function from a
range to a tick list. -/
structure TickMarks where
  LabelStyle : TextStyle
  MarkStyle : LineStyle
  Length : ℚ
  TickMarker : ℚ → ℚ → List Tick

/-- The embedded interface call `tickMarks.Marks(min, max)`. -/
def TickMarks.Marks (tm : TickMarks) (mn mx : ℚ) : List Tick :=
  tm.TickMarker mn mx

/-- The `TickMarks.labelHeight` (`axis.go`): the ascent of the tick-label font in
inches, taken at the first non-minor tick; zero when every tick is minor. -/
def TickMarks.labelHeight (tick : TickMarks) : List Tick → ℚ
  | [] => 0
  | t :: ts =>
    if t.minor then tick.labelHeight ts
    else tick.LabelStyle.Font.Extents.Ascent / PtInch

/-- The accumulator loop inside `TickMarks.labelWidth` (`axis.go`): running
maximum (in points) of the measured widths of the non-minor tick labels,
starting from `0.0`. -/
def TickMarks.labelWidthLoop (tick : TickMarks) (ticks : List Tick) (maxWidth : ℚ) : ℚ :=
  match ticks with
  | [] => maxWidth
  | t :: ts =>
    if t.minor then tick.labelWidthLoop ts maxWidth
    else
      let w := tick.LabelStyle.Font.Width t.Label
      tick.labelWidthLoop ts (if w > maxWidth then w else maxWidth)

/-- The `TickMarks.labelWidth` (`axis.go`): the maximum measured label width over
the non-minor ticks, converted from points to inches. -/
def TickMarks.labelWidth (tick : TickMarks) (ticks : List Tick) : ℚ :=
  tick.labelWidthLoop ticks 0 / PtInch

/-- Decimal digits of a natural number, fuel-guided so that the kernel can
evaluate it; `natReprCore (n+1) n` prints `n`. -/
def natReprCore : ℕ → ℕ → List Char
  | 0, _ => []
  | fuel + 1, n =>
    if n < 10 then [Nat.digitChar n]
    else natReprCore fuel (n / 10) ++ [Nat.digitChar (n % 10)]

/-- Decimal representation of a natural number. -/
def natRepr (n : ℕ) : String := ⟨natReprCore (n + 1) n⟩

/-- Decimal representation of an integer. -/
def intRepr (i : ℤ) : String :=
  if i < 0 then "-" ++ natRepr i.natAbs else natRepr i.natAbs

/-- Modelled from the spec: Go's `fmt.Sprintf` with the general /
shortest-round-trip numeric format (the formatting used for major tick
labels).  The model is exact on integral values — the only values the claims
evaluate; a non-integral rational is rendered as `num/den` as a stand-in for
the shortest decimal form.  The output is never empty. -/
def fmtSprintfG (q : ℚ) : String :=
  if q.den = 1 then intRepr q.num
  else intRepr q.num ++ "/" ++ natRepr q.den

/-- The `DefaultTicks` (`axis.go`): the default tick-marker, an empty struct. -/
inductive DefaultTicks where
  | mk
deriving Repr, DecidableEq

/-- The `DefaultTicks.Marks` (`axis.go`): five ticks at the range endpoints, the
midpoint and the two quarter points; the quarter-point ticks carry no
label, the others are labelled with the `%g` rendering of their value. -/
def DefaultTicks.Marks (_ : DefaultTicks) (mn mx : ℚ) : List Tick :=
  [ { Value := mn, Label := fmtSprintfG mn },
    { Value := mn + (mx - mn) / 4, Label := "" },
    { Value := mn + (mx - mn) / 2, Label := fmtSprintfG (mn + (mx - mn) / 2) },
    { Value := mn + 3 * (mx - mn) / 4, Label := "" },
    { Value := mx, Label := fmtSprintfG mx } ]

/-- The `ConstantTicks` (`axis.go`): a tick-marker that always returns the same
fixed list of ticks. -/
def ConstantTicks : Type := List Tick

/-- The `ConstantTicks.Marks` (`axis.go`): returns the stored ticks, ignoring
the range. -/
def ConstantTicks.Marks (tks : ConstantTicks) (_ _ : ℚ) : List Tick := tks

/-- The `Axis` (`axis.go`): the data range, the axis label and its style, the
axis line style, the padding in inches and the tick marks. -/
structure Axis where
  Min : ℚ
  Max : ℚ
  Label : String
  LabelStyle : TextStyle
  AxisStyle : LineStyle
  Padding : ℚ
  Ticks : TickMarks

/-- The `Axis.X` (`axis.go`): transform the data point `x` to the drawing
coordinate for the given drawing area. -/
def Axis.X (a : Axis) (da : DrawArea) (x : ℚ) : ℚ :=
  let p := (x - a.Min) / (a.Max - a.Min)
  da.Min.X + p * (da.Max.X - da.Min.X)

/-- The `Axis.Y` (`axis.go`): transform the data point `y` to the drawing
coordinate for the given drawing area. -/
def Axis.Y (a : Axis) (da : DrawArea) (y : ℚ) : ℚ :=
  let p := (y - a.Min) / (a.Max - a.Min)
  da.Min.Y + p * (da.Max.Y - da.Min.Y)

/-- The `Axis.height` (`axis.go`): the height of the axis in inches when drawn
as a horizontal axis, accumulated exactly as the Go code does. -/
def Axis.height (a : Axis) : ℚ :=
  let h0 : ℚ := 0
  let h1 := if a.Label ≠ "" then h0 + a.LabelStyle.Font.Extents.Height / PtInch else h0
  let marks := a.Ticks.Marks a.Min a.Max
  let h2 := if 0 < marks.length then h1 + a.Ticks.Length + a.Ticks.labelHeight marks else h1
  let h3 := h2 + a.AxisStyle.Width / 2
  h3 + a.Padding

/-- The `Axis.width` (`axis.go`): the width of the axis in inches when drawn as
a vertical axis, accumulated exactly as the Go code does. -/
def Axis.width (a : Axis) : ℚ :=
  let w0 : ℚ := 0
  let w1 := if a.Label ≠ "" then w0 + a.LabelStyle.Font.Extents.Ascent / PtInch else w0
  let marks := a.Ticks.Marks a.Min a.Max
  let w2 :=
    if 0 < marks.length then
      let lwidth := a.Ticks.labelWidth marks
      let w1a :=
        if lwidth > 0 then
          w1 + lwidth + a.Ticks.LabelStyle.Font.Width " " / PtInch
        else w1
      w1a + a.Ticks.Length
    else w1
  let w3 := w2 + a.AxisStyle.Width / 2
  w3 + a.Padding

/-- A drawing-backend operation, recording the calls `drawHoriz` makes on the
`DrawArea` collaborator in order. -/
inductive DrawOp where
  | setTextStyle (s : TextStyle)
  | setLineStyle (s : LineStyle)
  | text (x y xalign yalign : ℚ) (s : String)
  | line (ps : List Point)

/-- The `Axis.drawHoriz` (`axis.go`), modelled as the ordered trace of backend
calls it emits.  The cursor `y` is threaded exactly as in the Go code:
label descent/ascent advance, tick labels, tick label height, tick mark
lines, tick length, and finally the axis base line at the accumulated `y`. -/
def Axis.drawHoriz (a : Axis) (da : DrawArea) : List DrawOp :=
  let y := da.Min.Y
  let st1 : List DrawOp × ℚ :=
    if a.Label ≠ "" then
      let y := y + -(a.LabelStyle.Font.Extents.Descent / PtInch * da.DPI)
      let ops := [DrawOp.setTextStyle a.LabelStyle,
                  DrawOp.text da.Center.X y (-(1/2)) 0 a.Label]
      let y := y + a.LabelStyle.Font.Extents.Ascent / PtInch * da.DPI
      (ops, y)
    else ([], y)
  let marks := a.Ticks.Marks a.Min a.Max
  let st2 : List DrawOp × ℚ :=
    if 0 < marks.length then
      let y := st1.2
      let labelOps := marks.filterMap fun t =>
        if t.minor then none
        else some (DrawOp.text (a.X da t.Value) y (-(1/2)) 0 t.Label)
      let y := y + a.Ticks.labelHeight marks * da.DPI
      let len := a.Ticks.Length * da.DPI
      let lineOps := marks.map fun t =>
        let x := a.X da t.Value
        DrawOp.line [⟨x, y + t.lengthOffset len⟩, ⟨x, y + len⟩]
      let y := y + len
      (st1.1 ++ [DrawOp.setLineStyle a.Ticks.MarkStyle,
                 DrawOp.setTextStyle a.Ticks.LabelStyle]
            ++ labelOps ++ lineOps, y)
    else st1
  st2.1 ++ [DrawOp.setLineStyle a.AxisStyle,
            DrawOp.line [⟨da.Min.X, st2.2⟩, ⟨da.Max.X, st2.2⟩]]

/-- The `y` coordinate of the final axis base line emitted by a horizontal
draw trace: the first point of the trailing `Line` call, when present. -/
def lastLineY (ops : List DrawOp) : Option ℚ :=
  match ops.getLast? with
  | some (DrawOp.line (p :: _)) => some p.Y
  | _ => none

/-- The `DefaultFont` (`axis.go`). -/
def DefaultFont : String := "Times-Roman"

/-- Modelled from the spec: the font/metrics provider,
`measure(fontName, size) → Font, error` — the external collaborator behind
`MakeFont` (declared elsewhere in the repository). -/
def FontEnv : Type := String → ℚ → Except String Font

/-- The outcome of running a Go constructor that has no error return: it
either produces its value or panics, terminating the process.  There is no
constructor for a recoverable error result because the Go signatures
(`func MakeAxis() Axis`, `func MakeTickMarks() TickMarks`) have none. -/
inductive ConstructResult (α : Type) where
  | ok (a : α)
  | panicked (msg : String)

/-- The `MakeTickMarks` (`axis.go`): the default tick marks; panics when the
tick-label font fails to load.  The font provider is passed explicitly. -/
def MakeTickMarks (env : FontEnv) : ConstructResult TickMarks :=
  match env DefaultFont 10 with
  | Except.error e => ConstructResult.panicked e
  | Except.ok labelFont =>
    ConstructResult.ok
      { LabelStyle := { Color := ⟨0, 0, 0, 255⟩, Font := labelFont },
        MarkStyle := { Color := ⟨0, 0, 0, 255⟩, Width := 1 / 64 },
        Length := 1 / 10,
        TickMarker := fun mn mx => DefaultTicks.Marks DefaultTicks.mk mn mx }

/-- The `MakeAxis` (`axis.go`): the default axis; panics when the label font
fails to load (and propagates the panic out of `MakeTickMarks`).  The Go
code initializes `Min`/`Max` to the sentinels `math.Inf(1)`/`math.Inf(-1)`,
which have no rational counterpart; they are passed in as `posInf`/`negInf`
so that the error-handling structure is modelled without inventing values
for them. -/
def MakeAxis (env : FontEnv) (posInf negInf : ℚ) : ConstructResult Axis :=
  match env DefaultFont 12 with
  | Except.error e => ConstructResult.panicked e
  | Except.ok labelFont =>
    match MakeTickMarks env with
    | ConstructResult.panicked e => ConstructResult.panicked e
    | ConstructResult.ok ticks =>
      ConstructResult.ok
        { Min := posInf,
          Max := negInf,
          Label := "",
          LabelStyle := { Color := Black, Font := labelFont },
          AxisStyle := { Color := Black, Width := 1 / 64 },
          Padding := 1 / 8,
          Ticks := ticks }

/-! ### Claim-side formulas

The next three definitions transcribe the *specification's* formulas for
`height`, `width` and the `drawHoriz` base-line position, to be compared
with the definitions transcribed from the source. -/

/-- The spec's formula for `height()`: axis-label *ascent* in inches (if the
label is non-empty), plus tick length and tick-label height (if any marks),
plus half the axis line width, plus padding. -/
def heightClaimed (a : Axis) : ℚ :=
  (if a.Label ≠ "" then a.LabelStyle.Font.Extents.Ascent / PtInch else 0)
  + (if 0 < (a.Ticks.Marks a.Min a.Max).length then
       a.Ticks.Length + a.Ticks.labelHeight (a.Ticks.Marks a.Min a.Max)
     else 0)
  + a.AxisStyle.Width / 2 + a.Padding

/-- The spec's formula for `width()`: axis-label *height* in inches (if the
label is non-empty), plus, when there are marks, the label width and one
space-character width (only when the label width is positive) and the tick
length, plus half the axis line width, plus padding. -/
def widthClaimed (a : Axis) : ℚ :=
  (if a.Label ≠ "" then a.LabelStyle.Font.Extents.Height / PtInch else 0)
  + (if 0 < (a.Ticks.Marks a.Min a.Max).length then
       (if 0 < a.Ticks.labelWidth (a.Ticks.Marks a.Min a.Max) then
          a.Ticks.labelWidth (a.Ticks.Marks a.Min a.Max)
            + a.Ticks.LabelStyle.Font.Width " " / PtInch
        else 0)
       + a.Ticks.Length
     else 0)
  + a.AxisStyle.Width / 2 + a.Padding

/-- The spec's formula for the `y` coordinate of the axis base line drawn by
`drawHoriz`: the bottom of the area plus the reserved height less the
half-line-width and padding terms, scaled to drawing units. -/
def drawHorizClaimedBaseY (a : Axis) (da : DrawArea) : ℚ :=
  da.Min.Y + (a.height - a.AxisStyle.Width / 2 - a.Padding) * da.DPI

/-- The `y` coordinate at which `drawHoriz` actually draws the axis base
line, read off from the source: the label advances the cursor by
ascent − descent (not by the font height), then the tick block advances it
by label height plus tick length. -/
def drawHorizBaseY (a : Axis) (da : DrawArea) : ℚ :=
  da.Min.Y +
    ((if a.Label ≠ "" then
        (a.LabelStyle.Font.Extents.Ascent - a.LabelStyle.Font.Extents.Descent) / PtInch
      else 0)
     + (if 0 < (a.Ticks.Marks a.Min a.Max).length then
          a.Ticks.labelHeight (a.Ticks.Marks a.Min a.Max) + a.Ticks.Length
        else 0)) * da.DPI

/-! ### Concrete fixtures -/

/-- A concrete font whose extents distinguish ascent (10), descent (3) and
height (12), with a one-point-per-character width model. -/
def sampleFont : Font :=
  { extents := ⟨10, 3, 12⟩, width := fun s => (s.length : ℚ) }

/-- A concrete text style over `sampleFont`. -/
def sampleStyle : TextStyle := { Color := Black, Font := sampleFont }

/-- Concrete tick marks whose generator returns no ticks. -/
def sampleTicks : TickMarks :=
  { LabelStyle := sampleStyle,
    MarkStyle := { Color := Black, Width := 0 },
    Length := 0,
    TickMarker := fun _ _ => [] }

/-- A concrete labelled axis over the sample font, with no ticks, zero line
width and zero padding, so that only the label term contributes to the
layout size. -/
def sampleAxisH : Axis :=
  { Min := 0, Max := 1, Label := "x", LabelStyle := sampleStyle,
    AxisStyle := { Color := Black, Width := 0 }, Padding := 0,
    Ticks := sampleTicks }

/-- A concrete unlabelled axis with the data range [0, 10], used to
exercise the coordinate transform. -/
def sampleAxisT : Axis :=
  { Min := 0, Max := 10, Label := "", LabelStyle := sampleStyle,
    AxisStyle := { Color := Black, Width := 0 }, Padding := 0,
    Ticks := sampleTicks }

/-- A concrete drawing area. -/
def sampleDA : DrawArea := { Min := ⟨1, 2⟩, Max := ⟨5, 8⟩, DPI := 1 }

/-- A font provider that fails every lookup with a fixed message. -/
def failingFontEnv : FontEnv := fun _ _ => Except.error "font load failed"

/-- A second failing font provider, with a distinct message. -/
def failingFontEnv2 : FontEnv := fun _ _ => Except.error "no such font"

/-- The fixed tick list of the spec's constant-generator example. -/
def sampleConstTicks : ConstantTicks :=
  ([⟨10, "a"⟩, ⟨20, ""⟩] : List Tick)

/-! ### Helper lemmas -/

theorem natReprCore_ne_nil (fuel n : ℕ) : natReprCore (fuel + 1) n ≠ [] := by
  simp only [natReprCore]
  split
  · simp
  · simp

theorem natRepr_length_pos (n : ℕ) : 0 < (natRepr n).length :=
  List.length_pos.mpr (natReprCore_ne_nil n n)

theorem intRepr_length_pos (i : ℤ) : 0 < (intRepr i).length := by
  rw [intRepr]
  split
  · rw [String.length_append]
    have := natRepr_length_pos i.natAbs
    omega
  · exact natRepr_length_pos _

theorem fmtSprintfG_ne_empty (q : ℚ) : fmtSprintfG q ≠ "" := by
  have hpos : 0 < (fmtSprintfG q).length := by
    rw [fmtSprintfG]
    split
    · exact intRepr_length_pos _
    · rw [String.length_append, String.length_append]
      have := intRepr_length_pos q.num
      omega
  intro h
  rw [h] at hpos
  exact absurd hpos (by decide)

/-! ### Claims -/

/-- C5: the default generator returns exactly 5 ticks at fractions
{0, 1/4, 1/2, 3/4, 1} of the range, in order; the ticks at fractions 0,
1/2 and 1 are labelled with the general numeric rendering of their value
(which is never empty), and the quarter-point ticks have empty labels.  On
[0, 100] the values are [0, 25, 50, 75, 100] with labels "0", "50", "100"
at 0, 50, 100 and empty labels at 25 and 75. -/
theorem defaultTicks_marks_spec :
    (∀ mn mx : ℚ, DefaultTicks.Marks DefaultTicks.mk mn mx =
      [ { Value := mn + 0 * (mx - mn), Label := fmtSprintfG (mn + 0 * (mx - mn)) },
        { Value := mn + 1/4 * (mx - mn), Label := "" },
        { Value := mn + 1/2 * (mx - mn), Label := fmtSprintfG (mn + 1/2 * (mx - mn)) },
        { Value := mn + 3/4 * (mx - mn), Label := "" },
        { Value := mn + 1 * (mx - mn), Label := fmtSprintfG (mn + 1 * (mx - mn)) } ])
    ∧ (∀ q : ℚ, fmtSprintfG q ≠ "")
    ∧ DefaultTicks.Marks DefaultTicks.mk 0 100 =
        [ { Value := 0, Label := "0" }, { Value := 25, Label := "" },
          { Value := 50, Label := "50" }, { Value := 75, Label := "" },
          { Value := 100, Label := "100" } ] := by
  refine ⟨fun mn mx => ?_, fmtSprintfG_ne_empty, ?_⟩
  · have e0 : mn + 0 * (mx - mn) = mn := by ring
    have e1 : mn + 1/4 * (mx - mn) = mn + (mx - mn) / 4 := by ring
    have e2 : mn + 1/2 * (mx - mn) = mn + (mx - mn) / 2 := by ring
    have e3 : mn + 3/4 * (mx - mn) = mn + 3 * (mx - mn) / 4 := by ring
    have e4 : mn + 1 * (mx - mn) = mx := by ring
    simp only [DefaultTicks.Marks]
    rw [e0, e1, e2, e3, e4]
  · have h25 : (0 : ℚ) + (100 - 0) / 4 = 25 := by norm_num
    have h50 : (0 : ℚ) + (100 - 0) / 2 = 50 := by norm_num
    have h75 : (0 : ℚ) + 3 * (100 - 0) / 4 = 75 := by norm_num
    have l0 : fmtSprintfG 0 = "0" := by decide
    have l50 : fmtSprintfG 50 = "50" := by decide
    have l100 : fmtSprintfG 100 = "100" := by decide
    simp only [DefaultTicks.Marks, h25, h50, h75, l0, l50, l100]

/-- C6: a constant generator returns exactly its stored tick list for every
range, including the spec's example list on a range containing neither tick
value. -/
theorem constantTicks_marks_id :
    (∀ (tks : ConstantTicks) (mn mx : ℚ), ConstantTicks.Marks tks mn mx = tks)
    ∧ ConstantTicks.Marks sampleConstTicks (-5) (-1) = ([⟨10, "a"⟩, ⟨20, ""⟩] : List Tick) :=
  ⟨fun _ _ _ => rfl, rfl⟩

/-- C8: a tick is minor exactly when its label is the empty string, and
`lengthOffset` returns half the given length for a minor tick and zero for
a major tick. -/
theorem tick_minor_lengthOffset_spec :
    (∀ t : Tick, t.minor = true ↔ t.Label = "")
    ∧ (∀ (t : Tick) (len : ℚ),
        (t.minor = true → t.lengthOffset len = len / 2)
        ∧ (t.minor = false → t.lengthOffset len = 0)) := by
  constructor
  · intro t
    simp [Tick.minor]
  · intro t len
    constructor <;> intro h <;> simp [Tick.lengthOffset, h]

/-- C9 counterexample: with a failing font provider, both default
constructors produce a panic (modelling Go process termination), not a
recoverable error result — indeed their Go signatures have no error
return. -/
theorem makeAxis_panics_on_font_failure :
    MakeAxis failingFontEnv 0 0 = ConstructResult.panicked "font load failed"
    ∧ MakeTickMarks failingFontEnv = ConstructResult.panicked "font load failed" :=
  ⟨rfl, rfl⟩

/-- C9 amended: when font lookup fails, `MakeAxis` and `MakeTickMarks`
panic with the font error rather than returning it as a recoverable error
result; downstream layout and draw routines have no failure path at all. -/
theorem make_constructors_panic_on_font_failure (env : FontEnv) (e : String) (p n : ℚ)
    (h10 : env DefaultFont 10 = Except.error e)
    (h12 : env DefaultFont 12 = Except.error e) :
    MakeTickMarks env = ConstructResult.panicked e
    ∧ MakeAxis env p n = ConstructResult.panicked e := by
  constructor
  · simp only [MakeTickMarks, h10]
  · simp only [MakeAxis, h12]

/-- Witness for the amended C9 theorem at a concrete failing provider. -/
theorem make_constructors_panic_on_font_failure_witness :
    MakeTickMarks failingFontEnv2 = ConstructResult.panicked "no such font"
    ∧ MakeAxis failingFontEnv2 0 0 = ConstructResult.panicked "no such font" :=
  make_constructors_panic_on_font_failure failingFontEnv2 "no such font" 0 0 rfl rfl

/-- C10: for `min ≤ max` the default generator's ticks are in
non-decreasing value order and every tick value lies in `[min, max]`. -/
theorem defaultTicks_marks_ordered (mn mx : ℚ) (h : mn ≤ mx) :
    List.Chain' (fun t1 t2 : Tick => t1.Value ≤ t2.Value)
      (DefaultTicks.Marks DefaultTicks.mk mn mx)
    ∧ ∀ t ∈ DefaultTicks.Marks DefaultTicks.mk mn mx, mn ≤ t.Value ∧ t.Value ≤ mx := by
  constructor
  · simp only [DefaultTicks.Marks, List.chain'_cons, List.chain'_singleton, and_true]
    refine ⟨?_, ?_, ?_, ?_⟩ <;> linarith
  · intro t ht
    simp only [DefaultTicks.Marks, List.mem_cons, List.not_mem_nil, or_false] at ht
    rcases ht with h1 | h1 | h1 | h1 | h1 <;> subst h1 <;> constructor <;> linarith

/-- Witness for the C10 theorem on the range [0, 100]. -/
theorem defaultTicks_marks_ordered_witness :
    List.Chain' (fun t1 t2 : Tick => t1.Value ≤ t2.Value)
      (DefaultTicks.Marks DefaultTicks.mk 0 100)
    ∧ ∀ t ∈ DefaultTicks.Marks DefaultTicks.mk 0 100, 0 ≤ t.Value ∧ t.Value ≤ 100 :=
  defaultTicks_marks_ordered 0 100 (by norm_num)

/-- C4: for a non-degenerate range the transform is exact at both endpoints
on both axes, and `X` is monotone non-decreasing in the data value whenever
the drawing area has positive horizontal extent. -/
theorem axis_transform_spec (a : Axis) (da : DrawArea) (h : a.Min < a.Max) :
    a.X da a.Min = da.Min.X ∧ a.X da a.Max = da.Max.X
    ∧ a.Y da a.Min = da.Min.Y ∧ a.Y da a.Max = da.Max.Y
    ∧ ∀ x1 x2 : ℚ, x1 ≤ x2 → da.Min.X < da.Max.X → a.X da x1 ≤ a.X da x2 := by
  have hne : a.Max - a.Min ≠ 0 := sub_ne_zero_of_ne (ne_of_gt h)
  refine ⟨?_, ?_, ?_, ?_, ?_⟩
  · simp [Axis.X]
  · simp only [Axis.X, div_self hne]
    ring
  · simp [Axis.Y]
  · simp only [Axis.Y, div_self hne]
    ring
  · intro x1 x2 hx hda
    simp only [Axis.X]
    apply add_le_add_left
    apply mul_le_mul_of_nonneg_right
    · exact (div_le_div_iff_of_pos_right (sub_pos.mpr h)).mpr (by linarith)
    · exact sub_nonneg.mpr hda.le

/-- Witness for the C4 theorem on the range [0, 10] and a concrete area. -/
theorem axis_transform_spec_witness :
    sampleAxisT.X sampleDA sampleAxisT.Min = sampleDA.Min.X
    ∧ sampleAxisT.X sampleDA sampleAxisT.Max = sampleDA.Max.X
    ∧ sampleAxisT.Y sampleDA sampleAxisT.Min = sampleDA.Min.Y
    ∧ sampleAxisT.Y sampleDA sampleAxisT.Max = sampleDA.Max.Y
    ∧ sampleAxisT.X sampleDA 3 ≤ sampleAxisT.X sampleDA 4 := by
  have h := axis_transform_spec sampleAxisT sampleDA (by norm_num [sampleAxisT])
  exact ⟨h.1, h.2.1, h.2.2.1, h.2.2.2.1,
         h.2.2.2.2 3 4 (by norm_num) (by norm_num [sampleDA])⟩

/-- The branchless form of the running-maximum update in `labelWidth`. -/
theorem ite_gt_eq_max (w m : ℚ) : (if w > m then w else m) = max w m := by
  rcases le_or_lt w m with hle | hlt
  · rw [if_neg (not_lt.mpr hle), max_eq_right hle]
  · rw [if_pos hlt, max_eq_left hlt.le]

/-- A `max`-fold distributes over a `max` in its initial accumulator. -/
theorem foldr_max_init (f : Tick → ℚ) (l : List Tick) (c m : ℚ) :
    l.foldr (fun t r => max (f t) r) (max c m)
      = max c (l.foldr (fun t r => max (f t) r) m) := by
  induction l with
  | nil => rfl
  | cons t ts ih => simp [ih, max_left_comm]

/-- The `labelWidth` accumulator loop computes a right fold of `max` over
the widths of the non-minor tick labels. -/
theorem labelWidthLoop_eq (tm : TickMarks) (l : List Tick) :
    ∀ m : ℚ, tm.labelWidthLoop l m =
      (l.filter fun t => !t.minor).foldr
        (fun t r => max (tm.LabelStyle.Font.Width t.Label) r) m := by
  induction l with
  | nil => intro m; rfl
  | cons t ts ih =>
    intro m
    by_cases h : t.minor = true
    · simp [TickMarks.labelWidthLoop, h, ih]
    · have hb : t.minor = false := by revert h; cases t.minor <;> simp
      simp only [TickMarks.labelWidthLoop, hb, Bool.false_eq_true, if_false,
                 List.filter_cons, Bool.not_false, if_true, List.foldr_cons]
      rw [ite_gt_eq_max, ih, foldr_max_init]

/-- Dividing a `max`-fold by the positive point-to-inch constant gives the
`max`-fold of the divided values. -/
theorem foldr_max_div (f : Tick → ℚ) (l : List Tick) :
    (l.map fun t => f t / PtInch).foldr max 0
      = (l.foldr (fun t r => max (f t) r) 0) / PtInch := by
  induction l with
  | nil => simp
  | cons t ts ih =>
    simp only [List.map_cons, List.foldr_cons, ih]
    exact max_div_div_right (by norm_num [PtInch]) _ _

/-- The `labelHeight` characterised: the tick-label ascent in inches when some
tick is non-minor, zero otherwise. -/
theorem labelHeight_eq (tm : TickMarks) (tks : List Tick) :
    tm.labelHeight tks =
      if tks.any (fun t => !t.minor) then tm.LabelStyle.Font.Extents.Ascent / PtInch
      else 0 := by
  induction tks with
  | nil => simp [TickMarks.labelHeight]
  | cons t ts ih =>
    by_cases h : t.minor = true
    · simp [TickMarks.labelHeight, h, ih]
    · have hb : t.minor = false := by revert h; cases t.minor <;> simp
      simp [TickMarks.labelHeight, hb]

/-- The `labelWidth` characterised: the `max`-fold, from zero, of the non-minor
tick label widths in inches. -/
theorem labelWidth_eq (tm : TickMarks) (tks : List Tick) :
    tm.labelWidth tks =
      ((tks.filter fun t => !t.minor).map
        (fun t => tm.LabelStyle.Font.Width t.Label / PtInch)).foldr max 0 := by
  rw [TickMarks.labelWidth, labelWidthLoop_eq tm tks 0, foldr_max_div]

/-- C7: `labelHeight` is the label font's ascent in inches when the list has
a major tick and zero otherwise; `labelWidth` is the maximum of the major
tick label widths in inches, zero when there is no major tick; both are
zero on the empty list and on lists of only minor ticks, and a minor tick
at the head contributes nothing to either. -/
theorem labelMetrics_spec :
    (∀ (tm : TickMarks) (tks : List Tick),
       tm.labelHeight tks =
         if tks.any (fun t => !t.minor) then tm.LabelStyle.Font.Extents.Ascent / PtInch
         else 0)
    ∧ (∀ (tm : TickMarks) (tks : List Tick),
       tm.labelWidth tks =
         ((tks.filter fun t => !t.minor).map
           (fun t => tm.LabelStyle.Font.Width t.Label / PtInch)).foldr max 0)
    ∧ (∀ tm : TickMarks, tm.labelHeight [] = 0 ∧ tm.labelWidth [] = 0)
    ∧ (∀ (tm : TickMarks) (tks : List Tick), (∀ t ∈ tks, t.minor = true) →
         tm.labelHeight tks = 0 ∧ tm.labelWidth tks = 0)
    ∧ (∀ (tm : TickMarks) (t : Tick) (tks : List Tick), t.minor = true →
         tm.labelHeight (t :: tks) = tm.labelHeight tks
         ∧ tm.labelWidth (t :: tks) = tm.labelWidth tks) := by
  refine ⟨labelHeight_eq, labelWidth_eq, ?_, ?_, ?_⟩
  · intro tm
    constructor
    · simp [TickMarks.labelHeight]
    · simp [TickMarks.labelWidth, TickMarks.labelWidthLoop]
  · intro tm tks hall
    constructor
    · have hany : tks.any (fun t => !t.minor) = false := by
        simp only [List.any_eq_false, Bool.not_eq_true]
        intro t ht
        simp [hall t ht]
      rw [labelHeight_eq, hany]
      simp
    · have hfil : tks.filter (fun t => !t.minor) = [] := by
        rw [List.filter_eq_nil_iff]
        intro t ht
        simp [hall t ht]
      rw [labelWidth_eq, hfil]
      simp
  · intro tm t tks h
    constructor
    · simp [TickMarks.labelHeight, h]
    · simp [TickMarks.labelWidth, TickMarks.labelWidthLoop, h]

/-- Witness for the C7 theorem on a concrete all-minor list. -/
theorem labelMetrics_spec_witness :
    sampleTicks.labelHeight [⟨1, ""⟩] = 0 ∧ sampleTicks.labelWidth [⟨1, ""⟩] = 0 :=
  labelMetrics_spec.2.2.2.1 sampleTicks [⟨1, ""⟩] (by decide)

/-- Witness for the C8 theorem at concrete minor and major ticks. -/
theorem tick_minor_lengthOffset_spec_witness :
    (Tick.mk 1 "").lengthOffset 6 = 6 / 2 ∧ (Tick.mk 1 "x").lengthOffset 6 = 0 :=
  ⟨(tick_minor_lengthOffset_spec.2 ⟨1, ""⟩ 6).1 (by decide),
   (tick_minor_lengthOffset_spec.2 ⟨1, "x"⟩ 6).2 (by decide)⟩

/-- C1 counterexample: on a labelled axis whose font has ascent 10 but
height 12, `height()` (which uses the font height) differs from the spec's
ascent-based formula. -/
theorem height_claim_counterexample :
    heightClaimed sampleAxisH ≠ sampleAxisH.height := by
  have hx : ("x" : String) ≠ "" := by decide
  norm_num [heightClaimed, Axis.height, sampleAxisH, sampleStyle, sampleFont,
            sampleTicks, TickMarks.Marks, Font.Extents, PtInch, hx]

/-- The sequential accumulation in `height` written as a closed-form sum. -/
theorem height_unfold (a : Axis) :
    a.height =
      (if a.Label ≠ "" then a.LabelStyle.Font.Extents.Height / PtInch else 0)
      + (if 0 < (a.Ticks.Marks a.Min a.Max).length then
           a.Ticks.Length + a.Ticks.labelHeight (a.Ticks.Marks a.Min a.Max)
         else 0)
      + a.AxisStyle.Width / 2 + a.Padding := by
  by_cases h1 : a.Label = "" <;>
    by_cases h2 : 0 < (a.Ticks.Marks a.Min a.Max).length <;>
      simp [Axis.height, h1, h2] <;> ring

/-- C1 amended: `height()` is the sum of the label font's `Extents().Height`
in inches (if the label is non-empty), the tick length plus the tick-label
height (if any marks were generated), half the axis line width, and the
padding. -/
theorem height_eq_spec (a : Axis) :
    a.height =
      (if a.Label ≠ "" then a.LabelStyle.Font.Extents.Height / PtInch else 0)
      + (if 0 < (a.Ticks.Marks a.Min a.Max).length then
           a.Ticks.Length + a.Ticks.labelHeight (a.Ticks.Marks a.Min a.Max)
         else 0)
      + a.AxisStyle.Width / 2 + a.Padding :=
  height_unfold a

/-- C2 counterexample: on the same axis, `width()` (which uses the font
ascent) differs from the spec's height-based formula. -/
theorem width_claim_counterexample :
    widthClaimed sampleAxisH ≠ sampleAxisH.width := by
  have hx : ("x" : String) ≠ "" := by decide
  norm_num [widthClaimed, Axis.width, sampleAxisH, sampleStyle, sampleFont,
            sampleTicks, TickMarks.Marks, Font.Extents, PtInch, hx]

/-- C2 amended: `width()` is the sum of the label font's `Extents().Ascent`
in inches (if the label is non-empty), then — when marks exist — the tick
label width plus one space-character width (only when that label width is
positive) plus the tick length, plus half the axis line width and the
padding. -/
theorem width_eq_spec (a : Axis) :
    a.width =
      (if a.Label ≠ "" then a.LabelStyle.Font.Extents.Ascent / PtInch else 0)
      + (if 0 < (a.Ticks.Marks a.Min a.Max).length then
           (if 0 < a.Ticks.labelWidth (a.Ticks.Marks a.Min a.Max) then
              a.Ticks.labelWidth (a.Ticks.Marks a.Min a.Max)
                + a.Ticks.LabelStyle.Font.Width " " / PtInch
            else 0)
           + a.Ticks.Length
         else 0)
      + a.AxisStyle.Width / 2 + a.Padding := by
  by_cases h1 : a.Label = "" <;>
    by_cases h2 : 0 < (a.Ticks.Marks a.Min a.Max).length <;>
      by_cases h3 : 0 < a.Ticks.labelWidth (a.Ticks.Marks a.Min a.Max) <;>
        simp [Axis.width, h1, h2, h3] <;> ring

/-- The last backend call of a trace ending in a line through two points is
that line; `lastLineY` reads the `y` of its first point. -/
theorem lastLineY_append_line (l : List DrawOp) (s : LineStyle) (p q : Point) :
    lastLineY (l ++ [DrawOp.setLineStyle s, DrawOp.line [p, q]]) = some p.Y := by
  simp [lastLineY, List.getLast?_append]

/-- C3 amended: `drawHoriz` draws the axis base line at the bottom of the
area plus the cursor advance of the draw routine — ascent *minus descent*
for a non-empty label (where `height()` reserves the font height), then
tick-label height plus tick length when marks exist — scaled by the DPI;
this agrees with the spec's `height()`-based position whenever the label
is empty or the label font's height equals its ascent minus its descent. -/
theorem drawHoriz_baseline_spec (a : Axis) (da : DrawArea) :
    lastLineY (a.drawHoriz da) = some (drawHorizBaseY a da)
    ∧ ((a.Label = "" ∨ a.LabelStyle.Font.Extents.Height
          = a.LabelStyle.Font.Extents.Ascent - a.LabelStyle.Font.Extents.Descent) →
       lastLineY (a.drawHoriz da) = some (drawHorizClaimedBaseY a da)) := by
  have hmain : lastLineY (a.drawHoriz da) = some (drawHorizBaseY a da) := by
    simp only [Axis.drawHoriz]
    rw [lastLineY_append_line]
    by_cases h1 : a.Label = "" <;>
      by_cases h2 : 0 < (a.Ticks.Marks a.Min a.Max).length <;>
        simp [drawHorizBaseY, h1, h2] <;> ring_nf
  refine ⟨hmain, fun hcoincide => ?_⟩
  rw [hmain]
  have hy : drawHorizBaseY a da = drawHorizClaimedBaseY a da := by
    rw [drawHorizBaseY, drawHorizClaimedBaseY, height_unfold a]
    rcases hcoincide with h1 | h1
    · have hcond : ¬(a.Label ≠ "") := fun hc => hc h1
      rw [if_neg hcond, if_neg hcond]
      split_ifs <;> ring
    · rw [h1]
      split_ifs <;> ring
  rw [hy]

/-- C3 counterexample: on a labelled axis whose font height (12) differs
from ascent − descent (7), the base line is not drawn at the position the
spec's `height()`-mirroring formula gives. -/
theorem drawHoriz_baseline_claim_counterexample :
    lastLineY (sampleAxisH.drawHoriz sampleDA)
      ≠ some (drawHorizClaimedBaseY sampleAxisH sampleDA) := by
  have hx : ("x" : String) ≠ "" := by decide
  simp only [Axis.drawHoriz]
  rw [lastLineY_append_line]
  norm_num [drawHorizClaimedBaseY, Axis.height, sampleAxisH, sampleStyle,
            sampleFont, sampleTicks, sampleDA, TickMarks.Marks, Font.Extents,
            PtInch, hx]

/-- Witness for the coincidence part of the C3 theorem at a concrete
unlabelled axis. -/
theorem drawHoriz_baseline_spec_witness :
    lastLineY (sampleAxisT.drawHoriz sampleDA)
      = some (drawHorizClaimedBaseY sampleAxisT sampleDA) :=
  (drawHoriz_baseline_spec sampleAxisT sampleDA).2 (Or.inl rfl)

/-- Witness for the C5 theorem at the concrete range [0, 100]. -/
theorem defaultTicks_marks_spec_witness :
    DefaultTicks.Marks DefaultTicks.mk 0 100 =
      [ { Value := 0, Label := "0" }, { Value := 25, Label := "" },
        { Value := 50, Label := "50" }, { Value := 75, Label := "" },
        { Value := 100, Label := "100" } ] :=
  defaultTicks_marks_spec.2.2

/-- Witness for the C6 theorem at a concrete range away from the ticks. -/
theorem constantTicks_marks_id_witness :
    ConstantTicks.Marks sampleConstTicks 0 1 = sampleConstTicks :=
  constantTicks_marks_id.1 sampleConstTicks 0 1

end Plt
